import Mathlib

/-
Verification of the grpc client proxy builder
(packages/grpc/src/internal/client.ts) against its specification.

The source is event-driven TypeScript.  We embed it shallowly: each
executor becomes a pure function from its inputs (the readiness flag,
the outcome the transport will deliver, the clock values at the relevant
evaluation points) to the ordered list of observable effects it performs
(metric increments, timing samples, span operations, transport
invocations) together with its result.  The asynchronous event handlers
of a streaming call are serialised in the order the transport emits its
events, which is the ordering the event loop guarantees for a single
stream.
-/

namespace CookieCutterGrpc

/-- Errors surfaced by the client.  The constructor
unsupportedOperation models the plain Error thrown for request-stream
methods (client.ts line 89); connectionTimeout models the error passed
by waitForReady when the deadline elapses; transport models any error
delivered by the underlying unary or streaming call; pipeClosed is the
rejection produced by AsyncPipe.send once the pipe has terminated. -/
inductive Err where
  | unsupportedOperation (msg : String)
  | connectionTimeout
  | transport (code : Nat)
  | pipeClosed
  deriving DecidableEq, Repr

/-- The result tag of the request_processed metric
(GrpcMetricResult, client.ts lines 37-40). -/
inductive MetricResult where
  | success
  | error
  deriving DecidableEq, Repr

/-- Observable effects performed by the client, in program order.
requestSent / requestProcessed / requestProcessingTime are the three
metrics of the GrpcMetrics enum (lines 32-36); spanStart, spanFailed
and spanFinish are the tracing operations (createCallSpan, failSpan,
span.finish); waitForReady, unaryRequest, serverStreamRequest,
streamCancel and clientClose are the transport primitives invoked.
Deadlines are absolute times in milliseconds. -/
inductive Effect where
  | requestSent
  | requestProcessed (result : MetricResult)
  | requestProcessingTime
  | spanStart
  | spanFailed
  | spanFinish
  | waitForReady (deadline : Nat)
  | unaryRequest (deadline : Option Nat)
  | serverStreamRequest (deadline : Option Nat)
  | streamCancel (id : Nat)
  | clientClose
  deriving DecidableEq, Repr

/-- callOptions (client.ts lines 109-119): a streaming method gets no
deadline (streams may run infinitely), a unary method gets the absolute
deadline Date.now() + config.requestTimeout.  nowCall is the value of
Date.now() at the moment callOptions is evaluated. -/
def callOptions (responseStream : Bool) (nowCall requestTimeout : Nat) : Option Nat :=
  if responseStream then none else some (nowCall + requestTimeout)

/-- The unary request and its completion callback (client.ts lines
192-222): the request is issued with the unary deadline; the callback
first increments request_processed tagged with the outcome, then emits
the timing sample, then fails the span on error, finishes the span, and
resolves or rejects with exactly the value or error the transport
delivered. -/
def unaryTransport (transport : Except Err Nat) (nowCall requestTimeout : Nat) :
    List Effect × Except Err Nat :=
  match transport with
  | Except.ok v =>
      ([Effect.unaryRequest (callOptions false nowCall requestTimeout),
        Effect.requestProcessed MetricResult.success,
        Effect.requestProcessingTime,
        Effect.spanFinish],
       Except.ok v)
  | Except.error e =>
      ([Effect.unaryRequest (callOptions false nowCall requestTimeout),
        Effect.requestProcessed MetricResult.error,
        Effect.requestProcessingTime,
        Effect.spanFailed,
        Effect.spanFinish],
       Except.error e)

/-- The unary executor (client.ts lines 181-223).  Inputs: the current
value of the per-method ready flag; readyErr, the outcome waitForReady
would deliver (some e = failure before the connection deadline, none =
the connection became ready); the outcome the transport delivers for
the unary request; the clock at call start (nowStart, used for the
waitForReady deadline) and at request issue time (nowCall, used for the
unary deadline); the configured timeouts.  Output: the effect trace,
the promise outcome, and the new value of the ready flag. -/
def unaryCall (ready : Bool) (readyErr : Option Err) (transport : Except Err Nat)
    (nowStart nowCall connectionTimeout requestTimeout : Nat) :
    List Effect × Except Err Nat × Bool :=
  let pre := [Effect.requestSent, Effect.spanStart]
  if ready then
    let r := unaryTransport transport nowCall requestTimeout
    (pre ++ r.1, r.2, true)
  else
    match readyErr with
    | some e =>
        (pre ++ [Effect.waitForReady (nowStart + connectionTimeout),
                 Effect.spanFailed, Effect.spanFinish],
         Except.error e, false)
    | none =>
        let r := unaryTransport transport nowCall requestTimeout
        (pre ++ [Effect.waitForReady (nowStart + connectionTimeout)] ++ r.1, r.2, true)

/-- Terminal state of the async bridge: still open, closed cleanly
(end of sequence), or failed with a stored error. -/
inductive Terminal where
  | opened
  | closedEnd
  | failedWith (e : Err)
  deriving DecidableEq, Repr

/-- Modelled from the spec: the Async Bridge (class AsyncPipe of
cookie-cutter-core, whose source is not part of these files).  Per the
spec it is a single-producer single-consumer adapter holding an ordered
pending-value queue and a terminal state; once terminal, no further
values are accepted, and consumption after termination replays the
terminal outcome deterministically. -/
structure Pipe (α : Type) where
  queue : List α
  terminal : Terminal
  deriving DecidableEq, Repr

/-- Modelled from the spec: AsyncPipe.send enqueues the value while the
pipe is open, preserving order, and is rejected once the pipe has
reached a terminal state (once terminal, no further values are
accepted). -/
def pipeSend {α : Type} (p : Pipe α) (a : α) : Except Err (Pipe α) :=
  match p.terminal with
  | Terminal.opened => Except.ok { p with queue := p.queue ++ [a] }
  | _ => Except.error Err.pipeClosed

/-- The data event handler (client.ts lines 169-175): the chunk is sent
into the pipe; if the send is rejected because the pipe already
terminated, the rejection is caught and ignored (nothing to do, pipe
was closed) and the chunk is silently discarded. -/
def onData {α : Type} (p : Pipe α) (chunk : α) : Pipe α :=
  match pipeSend p chunk with
  | Except.ok p2 => p2
  | Except.error _ => p

/-- An event emitted by the transport for a server-streaming call. -/
inductive StreamEvent (α : Type) where
  | data (chunk : α)
  | endOfStream
  | errorEvent (e : Err)
  deriving DecidableEq, Repr

/-- One transport event processed by the handlers installed in
client.ts lines 145-175, acting on the pipe and appending the effects
the handler performs.  end: the pipe is closed, then
request_processed with result success, the timing sample and
span.finish are emitted (lines 146-155).  error: request_processed
with result error, the timing sample, failSpan and span.finish are
emitted and the pipe is failed with the error (lines 157-167).
data: the chunk goes through onData (lines 169-175). -/
def processEvent {α : Type} (s : Pipe α × List Effect) (ev : StreamEvent α) :
    Pipe α × List Effect :=
  match ev with
  | StreamEvent.data c => (onData s.1 c, s.2)
  | StreamEvent.endOfStream =>
      ({ s.1 with terminal := Terminal.closedEnd },
       s.2 ++ [Effect.requestProcessed MetricResult.success,
               Effect.requestProcessingTime, Effect.spanFinish])
  | StreamEvent.errorEvent e =>
      ({ s.1 with terminal := Terminal.failedWith e },
       s.2 ++ [Effect.requestProcessed MetricResult.error,
               Effect.requestProcessingTime, Effect.spanFailed, Effect.spanFinish])

/-- The full event sequence of a streaming call folded through the
installed handlers, starting from a fresh open pipe and an empty
handler trace. -/
def streamRun {α : Type} (events : List (StreamEvent α)) : Pipe α × List Effect :=
  events.foldl processEvent (⟨[], Terminal.opened⟩, [])

/-- What the consumer of the streaming sequence observes (yield* pipe,
client.ts line 178): the queued values in order, then the terminal
outcome.  The terminal outcome is only reached after every queued value
has been consumed. -/
def consumeStream {α : Type} (events : List (StreamEvent α)) : List α × Terminal :=
  ((streamRun events).1.queue, (streamRun events).1.terminal)

/-- The body of the streaming executor (client.ts lines 122-179), run
when the returned async generator is first pulled: request_sent, span
creation, the readiness check, then the server-stream request with the
streaming call options, the handler wiring and the registration of the
stream; the handler effects follow in transport event order. -/
def streamingBody (ready : Bool) (readyErr : Option Err)
    (events : List (StreamEvent Nat))
    (nowStart nowCall connectionTimeout requestTimeout : Nat) :
    List Effect × Except Err (List Nat × Terminal) :=
  let pre := [Effect.requestSent, Effect.spanStart]
  let run :=
    ([Effect.serverStreamRequest (callOptions true nowCall requestTimeout)] ++
       (streamRun events).2,
     Except.ok (consumeStream events))
  if ready then
    (pre ++ run.1, run.2)
  else
    match readyErr with
    | some e =>
        (pre ++ [Effect.waitForReady (nowStart + connectionTimeout),
                 Effect.spanFailed, Effect.spanFinish],
         Except.error e)
    | none =>
        (pre ++ [Effect.waitForReady (nowStart + connectionTimeout)] ++ run.1, run.2)

/-- The set of method names whose per-method ready flag is true.  In
client.ts the variable ready is declared inside the loop over the
service definition keys (line 94), so each method closure captures its
own flag. -/
abbrev ReadyFlags := List String

/-- The readiness check performed at the start of each call
(client.ts lines 94-107 together with lines 132-134 and 188-190):
if the flag of the invoked method is already true the wait is skipped
entirely; otherwise whenReady is awaited, which calls
client.waitForReady with deadline Date.now() + connectionTimeout and
either fails the call or sets the flag of this method to true. -/
def readinessCheck (flags : ReadyFlags) (m : String) (readyErr : Option Err)
    (nowStart connectionTimeout : Nat) :
    List Effect × ReadyFlags × Except Err Unit :=
  if m ∈ flags then
    ([], flags, Except.ok ())
  else
    match readyErr with
    | some e =>
        ([Effect.waitForReady (nowStart + connectionTimeout)], flags, Except.error e)
    | none =>
        ([Effect.waitForReady (nowStart + connectionTimeout)], m :: flags, Except.ok ())

/-- The client state kept by ClientBase (client.ts lines 42-71): the
registry of pending streams (a Set; modelled as a duplicate-free list
of stream ids), whether client.close has been called, and the close
events that cancelled streams will deliver asynchronously. -/
structure ClientState where
  pendingStreams : List Nat
  closed : Bool
  queuedClose : List Nat
  deriving DecidableEq, Repr

/-- ClientBase.addStream (lines 65-70): the stream is added to the
registry (Set.add: no duplicate is created) and a close listener is
installed that will later remove it. -/
def addStream (s : ClientState) (id : Nat) : ClientState :=
  if id ∈ s.pendingStreams then s
  else { s with pendingStreams := s.pendingStreams ++ [id] }

/-- The close listener installed by addStream (lines 67-69), run when a
close event for the stream is delivered: the stream is removed from the
registry. -/
def onCloseEvent (s : ClientState) (id : Nat) : ClientState :=
  { s with pendingStreams := s.pendingStreams.filter (fun x => x ≠ id) }

/-- ClientBase.dispose (lines 58-63): every stream currently in the
registry receives cancel, then client.close is called.  dispose itself
does not remove anything from the registry; cancellation makes each
stream emit a close event later, which is what removes it. -/
def dispose (s : ClientState) : ClientState × List Effect :=
  ({ s with closed := true, queuedClose := s.queuedClose ++ s.pendingStreams },
   s.pendingStreams.map Effect.streamCancel ++ [Effect.clientClose])

/-- Delivery of all queued close events to their listeners, in order. -/
def drainClose (s : ClientState) : ClientState :=
  s.queuedClose.foldl onCloseEvent { s with queuedClose := [] }

/-- The kind of callable the builder installs for a method
(client.ts lines 85-92, 121, 180): the always-failing stub for
request-stream methods, the streaming executor for response-stream
methods, the unary executor otherwise. -/
inductive Installed where
  | requestStreamStub
  | streamingExecutor
  | unaryExecutor
  deriving DecidableEq, Repr

/-- The dispatch of createGrpcClient over the descriptor flags
(client.ts lines 87-92, 121, 180). -/
def installMethod (requestStream responseStream : Bool) : Installed :=
  if requestStream then Installed.requestStreamStub
  else if responseStream then Installed.streamingExecutor
  else Installed.unaryExecutor

/-- A streaming call that has been invoked but not yet consumed: in
the source the executor is an async generator function (line 122), so
calling it only captures its arguments and environment; no statement of
the body runs until the consumer requests the first value. -/
structure StreamGen where
  ready : Bool
  readyErr : Option Err
  events : List (StreamEvent Nat)
  nowStart : Nat
  nowCall : Nat
  connectionTimeout : Nat
  requestTimeout : Nat
  deriving DecidableEq, Repr

/-- The effects performed, and the outcome observed, once the consumer
starts pulling from the generator: the whole streaming body runs. -/
def consumeGen (g : StreamGen) : List Effect × Except Err (List Nat × Terminal) :=
  streamingBody g.ready g.readyErr g.events g.nowStart g.nowCall
    g.connectionTimeout g.requestTimeout

/-- The outcome of invoking an installed callable, before any
consumption of a returned sequence. -/
inductive CallResult where
  | unary (r : Except Err Nat)
  | stream (g : StreamGen)
  | failed (e : Err)
  deriving Repr

/-- Invoking the callable installed for a method (client.ts lines
85-224), given the call environment: the request-stream stub throws
immediately without touching the transport; the streaming executor
returns its generator without performing any effect; the unary executor
runs to completion.  The request argument only flows into the
transport request, whose outcome is the transport parameter, so it
does not affect control flow; it is kept to state that the stub fails
for every argument. -/
def invokeInstalled (i : Installed) (request : Nat) (ready : Bool)
    (readyErr : Option Err) (transport : Except Err Nat)
    (events : List (StreamEvent Nat))
    (nowStart nowCall connectionTimeout requestTimeout : Nat) :
    List Effect × CallResult :=
  match i with
  | Installed.requestStreamStub =>
      ([], CallResult.failed
        (Err.unsupportedOperation ("client-side streams are not supported")))
  | Installed.streamingExecutor =>
      ([], CallResult.stream
        ⟨ready, readyErr, events, nowStart, nowCall, connectionTimeout, requestTimeout⟩)
  | Installed.unaryExecutor =>
      let r := unaryCall ready readyErr transport nowStart nowCall
        connectionTimeout requestTimeout
      (r.1, CallResult.unary r.2.1)

/-- Number of effects in a trace satisfying a classifier. -/
def countE (p : Effect → Bool) : List Effect → Nat
  | [] => 0
  | e :: tr => countE p tr + (if p e then 1 else 0)

/-- Classifier: the request_sent metric increment. -/
def isSent : Effect → Bool
  | Effect.requestSent => true
  | _ => false

/-- Classifier: any request_processed metric increment. -/
def isProcessed : Effect → Bool
  | Effect.requestProcessed _ => true
  | _ => false

/-- Classifier: the request_processed increment tagged success. -/
def isProcessedSuccess : Effect → Bool
  | Effect.requestProcessed MetricResult.success => true
  | _ => false

/-- Classifier: the request_processed increment tagged error. -/
def isProcessedError : Effect → Bool
  | Effect.requestProcessed MetricResult.error => true
  | _ => false

/-- Classifier: the request_processing_time timing sample. -/
def isTiming : Effect → Bool
  | Effect.requestProcessingTime => true
  | _ => false

/-- Classifier: span creation. -/
def isSpanStart : Effect → Bool
  | Effect.spanStart => true
  | _ => false

/-- Classifier: failSpan. -/
def isSpanFailed : Effect → Bool
  | Effect.spanFailed => true
  | _ => false

/-- Classifier: span.finish. -/
def isSpanFinish : Effect → Bool
  | Effect.spanFinish => true
  | _ => false

/-- Whether a call gets past the readiness check: either the flag is
already set, or waitForReady reports no error. -/
def proceeds (ready : Bool) (readyErr : Option Err) : Bool :=
  ready || readyErr.isNone

/-- The terminal transport event of a streaming call: a clean end, or
an error event carrying the transport error. -/
def terminalEvent : Option Err → StreamEvent Nat
  | none => StreamEvent.endOfStream
  | some e => StreamEvent.errorEvent e

/-- The terminal state the bridge reaches for a given terminal
transport event: closed cleanly after end, failed after error. -/
def terminalOutcome : Option Err → Terminal
  | none => Terminal.closedEnd
  | some e => Terminal.failedWith e

/-- Delivering close events for every id in ids to a client whose
pending streams are all contained in ids leaves an empty registry. -/
theorem foldl_onCloseEvent_empty (ids : List Nat) :
    ∀ s : ClientState, s.pendingStreams ⊆ ids →
      (ids.foldl onCloseEvent s).pendingStreams = [] := by
  induction ids with
  | nil =>
      intro s h
      exact List.subset_nil.mp h
  | cons i ids ih =>
      intro s h
      simp only [List.foldl_cons]
      apply ih
      intro x hx
      simp only [onCloseEvent, List.mem_filter, decide_eq_true_eq] at hx
      rcases hx with ⟨hxs, hxi⟩
      have hm := h hxs
      simp only [List.mem_cons] at hm
      rcases hm with hm | hm
      · exact absurd hm hxi
      · exact hm

/-- Claim C1 as stated is false on the code: the ready variable is
declared inside the loop over the service definition keys (client.ts
line 94), so each method has its own flag.  Concretely: after a call on
method a observes the connection become ready, a subsequent call on
method b still performs the readiness wait. -/
theorem c1_counterexample :
    (readinessCheck (readinessCheck [] ("a") none 0 5).2.1 ("b") none 0 5).1 ≠ [] := by
  decide

/-- Claim C1 (amended): the readiness gate is per method, not per
client: a call on a method whose own flag is already set skips the
wait entirely and leaves the flags unchanged; a call on a method whose
own flag is unset performs the waitForReady wait regardless of the
flags of the other methods; a successful wait sets exactly the flag of
the invoked method, after which any subsequent call on that same
method skips the wait. -/
theorem c1_ready_per_method (flags : ReadyFlags) (m : String)
    (readyErr readyErr2 : Option Err) (nowStart nowStart2 cT cT2 : Nat) :
    (m ∈ flags →
      readinessCheck flags m readyErr nowStart cT = ([], flags, Except.ok ())) ∧
    (m ∉ flags →
      (readinessCheck flags m readyErr nowStart cT).1 =
        [Effect.waitForReady (nowStart + cT)]) ∧
    (m ∉ flags →
      (readinessCheck flags m none nowStart cT).2.1 = m :: flags) ∧
    readinessCheck (m :: flags) m readyErr2 nowStart2 cT2 =
      ([], m :: flags, Except.ok ()) := by
  refine ⟨?_, ?_, ?_, ?_⟩
  · intro h
    simp [readinessCheck, h]
  · intro h
    cases readyErr <;> simp [readinessCheck, h]
  · intro h
    simp [readinessCheck, h]
  · simp [readinessCheck]

/-- Witness for c1_ready_per_method at a concrete client with the flag
of method a set: a call on a skips the wait, a call on b waits. -/
theorem c1_ready_per_method_witness :
    readinessCheck [("a")] ("a") none 0 5 = ([], [("a")], Except.ok ()) ∧
    (readinessCheck [("a")] ("b") none 0 5).1 = [Effect.waitForReady (0 + 5)] :=
  ⟨(c1_ready_per_method [("a")] ("a") none none 0 0 5 5).1 (by decide),
   (c1_ready_per_method [("a")] ("b") none none 0 0 5 5).2.1 (by decide)⟩

/-- Claim C3: for every method descriptor with requestStream set, the
installed callable fails for every argument and call environment with
the unsupported-operation error thrown at client.ts line 89, with an
empty effect trace: no transport primitive is invoked, no metric is
emitted, no span is created. -/
theorem c3_request_stream_rejected (responseStream : Bool) (request : Nat)
    (ready : Bool) (readyErr : Option Err) (transport : Except Err Nat)
    (events : List (StreamEvent Nat)) (nowStart nowCall cT rT : Nat) :
    invokeInstalled (installMethod true responseStream) request ready readyErr
        transport events nowStart nowCall cT rT =
      ([], CallResult.failed
        (Err.unsupportedOperation ("client-side streams are not supported"))) := by
  simp [installMethod, invokeInstalled]

/-- Claim C4 as stated is false on the code: dispose cancels the
pending streams and closes the client, but removal from the registry
only happens in the close listener installed by addStream (client.ts
lines 67-69), which runs when the cancelled stream later emits its
close event.  Concretely: with stream 7 pending, the registry still
holds 7 when dispose returns. -/
theorem c4_counterexample :
    (dispose ⟨[7], false, []⟩).1.pendingStreams ≠ [] := by
  decide

/-- Claim C4 (amended): dispose sends a cancellation signal to every
stream in the registry and closes the connection; the registry is not
emptied by dispose itself but becomes empty once the close events of
the cancelled streams have been delivered; and dispose with an empty
registry performs only the connection close. -/
theorem c4_dispose (s : ClientState) :
    (dispose s).2 = s.pendingStreams.map Effect.streamCancel ++ [Effect.clientClose] ∧
    (dispose s).1.closed = true ∧
    (dispose s).1.pendingStreams = s.pendingStreams ∧
    (drainClose (dispose s).1).pendingStreams = [] ∧
    (s.pendingStreams = [] → (dispose s).2 = [Effect.clientClose]) := by
  refine ⟨rfl, rfl, rfl, ?_, ?_⟩
  · simp only [drainClose]
    apply foldl_onCloseEvent_empty
    intro x hx
    simp only [dispose] at hx ⊢
    simp only [List.mem_append]
    exact Or.inr hx
  · intro h
    simp [dispose, h]

/-- Witness for c4_dispose: disposing with no pending streams closes
the connection without any cancellation; disposing with stream 5
pending leaves an empty registry after its close event is handled. -/
theorem c4_dispose_witness :
    (dispose ⟨[], false, []⟩).2 = [Effect.clientClose] ∧
    (drainClose (dispose ⟨[5], false, []⟩).1).pendingStreams = [] :=
  ⟨(c4_dispose ⟨[], false, []⟩).2.2.2.2 rfl,
   (c4_dispose ⟨[5], false, []⟩).2.2.2.1⟩

/-- Processing a prefix of data events on an open pipe appends the
chunks to the queue in order and performs no handler effects. -/
theorem foldl_processEvent_data {α : Type} (ds : List α) :
    ∀ (q : List α) (tr : List Effect) (rest : List (StreamEvent α)),
      List.foldl processEvent (⟨q, Terminal.opened⟩, tr)
          (ds.map StreamEvent.data ++ rest) =
        List.foldl processEvent (⟨q ++ ds, Terminal.opened⟩, tr) rest := by
  induction ds with
  | nil =>
      intro q tr rest
      simp
  | cons c ds ih =>
      intro q tr rest
      simp only [List.map_cons, List.cons_append, List.foldl_cons]
      have h1 : processEvent (⟨q, Terminal.opened⟩, tr) (StreamEvent.data c) =
          (⟨q ++ [c], Terminal.opened⟩, tr) := by
        simp [processEvent, onData, pipeSend]
      rw [h1, ih]
      rw [List.append_assoc]
      rfl

/-- The handler trace of a run whose events are data chunks followed by
a clean end: exactly the success metrics and the span finish. -/
theorem streamRun_trace_end (ds : List Nat) :
    (streamRun (ds.map StreamEvent.data ++ [StreamEvent.endOfStream])).2 =
      [Effect.requestProcessed MetricResult.success, Effect.requestProcessingTime,
       Effect.spanFinish] := by
  simp only [streamRun]
  rw [foldl_processEvent_data]
  rfl

/-- The handler trace of a run whose events are data chunks followed by
an error: exactly the error metrics, failSpan and the span finish. -/
theorem streamRun_trace_error (ds : List Nat) (e : Err) :
    (streamRun (ds.map StreamEvent.data ++ [StreamEvent.errorEvent e])).2 =
      [Effect.requestProcessed MetricResult.error, Effect.requestProcessingTime,
       Effect.spanFailed, Effect.spanFinish] := by
  simp only [streamRun]
  rw [foldl_processEvent_data]
  rfl

/-- Claim C5: for a streaming call whose transport delivers data chunks
ds and then a terminal event, the consumer observes exactly the chunks
ds, in the exact order received, and then the matching terminal
outcome: clean end of sequence after the end event, the failure with
the transport error after an error event.  The terminal outcome sits
behind the whole queue, so it is observed only after every preceding
chunk has been made available to the consumer. -/
theorem c5_stream_order (ds : List Nat) (te : Option Err) :
    consumeStream (ds.map StreamEvent.data ++ [terminalEvent te]) =
      (ds, terminalOutcome te) := by
  cases te with
  | none =>
      simp only [consumeStream, streamRun, terminalEvent, terminalOutcome]
      rw [foldl_processEvent_data]
      rfl
  | some e =>
      simp only [consumeStream, streamRun, terminalEvent, terminalOutcome]
      rw [foldl_processEvent_data]
      rfl

/-- Claim C9: once the bridge of a streaming call has reached a
terminal state, a data chunk delivered afterwards by the transport is
silently discarded: the send into the pipe is rejected, the handler
catches the rejection (client.ts lines 169-175), the pipe is left
unchanged and no effect and no error reaches the transport or the
caller. -/
theorem c9_late_data_dropped (p : Pipe Nat) (chunk : Nat) (tr : List Effect)
    (h : p.terminal ≠ Terminal.opened) :
    onData p chunk = p ∧
    processEvent (p, tr) (StreamEvent.data chunk) = (p, tr) ∧
    pipeSend p chunk = Except.error Err.pipeClosed := by
  obtain ⟨q, t⟩ := p
  cases t with
  | opened => exact absurd rfl h
  | closedEnd => exact ⟨rfl, rfl, rfl⟩
  | failedWith e => exact ⟨rfl, rfl, rfl⟩

/-- Witness for c9_late_data_dropped on a closed pipe and chunk 5. -/
theorem c9_late_data_dropped_witness :
    onData (Pipe.mk ([] : List Nat) Terminal.closedEnd) 5 =
      Pipe.mk ([] : List Nat) Terminal.closedEnd ∧
    processEvent (Pipe.mk ([] : List Nat) Terminal.closedEnd, ([] : List Effect))
        (StreamEvent.data 5) =
      (Pipe.mk ([] : List Nat) Terminal.closedEnd, ([] : List Effect)) ∧
    pipeSend (Pipe.mk ([] : List Nat) Terminal.closedEnd) 5 =
      Except.error Err.pipeClosed :=
  c9_late_data_dropped (Pipe.mk ([] : List Nat) Terminal.closedEnd) 5 [] (by decide)

/-- Claim C10: invoking the streaming executor performs no observable
effect at all: the effect trace of the invocation is empty and the
result is only the suspended generator capturing the call environment;
the whole body, beginning with the request_sent metric and the span
creation and including the readiness wait, the transport stream and the
registration, runs only once the consumer pulls from the returned
sequence. -/
theorem c10_lazy_streaming (request : Nat) (ready : Bool) (readyErr : Option Err)
    (transport : Except Err Nat) (events : List (StreamEvent Nat))
    (nowStart nowCall cT rT : Nat) :
    (invokeInstalled (installMethod false true) request ready readyErr transport
        events nowStart nowCall cT rT).1 = [] ∧
    (invokeInstalled (installMethod false true) request ready readyErr transport
        events nowStart nowCall cT rT).2 =
      CallResult.stream ⟨ready, readyErr, events, nowStart, nowCall, cT, rT⟩ ∧
    consumeGen ⟨ready, readyErr, events, nowStart, nowCall, cT, rT⟩ =
      streamingBody ready readyErr events nowStart nowCall cT rT ∧
    (consumeGen ⟨ready, readyErr, events, nowStart, nowCall, cT, rT⟩).1.take 2 =
      [Effect.requestSent, Effect.spanStart] := by
  refine ⟨rfl, rfl, rfl, ?_⟩
  cases ready <;> cases readyErr <;> rfl

/-- Claim C6: a unary call that gets past the readiness check and whose
transport completes without error resolves with exactly the decoded
response value delivered by the transport, emits exactly one
request_processed metric tagged success, never calls failSpan, and
finishes the span exactly once. -/
theorem c6_unary_success (v : Nat) (ready : Bool) (readyErr : Option Err)
    (nowStart nowCall cT rT : Nat) (h : proceeds ready readyErr = true) :
    (unaryCall ready readyErr (Except.ok v) nowStart nowCall cT rT).2.1 =
      Except.ok v ∧
    countE isProcessedSuccess
      (unaryCall ready readyErr (Except.ok v) nowStart nowCall cT rT).1 = 1 ∧
    countE isSpanFailed
      (unaryCall ready readyErr (Except.ok v) nowStart nowCall cT rT).1 = 0 ∧
    countE isSpanFinish
      (unaryCall ready readyErr (Except.ok v) nowStart nowCall cT rT).1 = 1 := by
  cases ready <;> cases readyErr <;>
    simp_all [unaryCall, unaryTransport, proceeds, countE,
      isProcessedSuccess, isSpanFailed, isSpanFinish]

/-- Witness for c6_unary_success: a ready client resolving 42. -/
theorem c6_unary_success_witness :
    (unaryCall true none (Except.ok 42) 0 0 10 10).2.1 = Except.ok 42 ∧
    countE isProcessedSuccess (unaryCall true none (Except.ok 42) 0 0 10 10).1 = 1 ∧
    countE isSpanFailed (unaryCall true none (Except.ok 42) 0 0 10 10).1 = 0 ∧
    countE isSpanFinish (unaryCall true none (Except.ok 42) 0 0 10 10).1 = 1 :=
  c6_unary_success 42 true none 0 0 10 10 rfl

/-- Claim C7: a unary call that gets past the readiness check and whose
transport yields an error e rejects with exactly e; exactly one
request_processed metric tagged error is emitted; and the trace ends
with the error metrics followed by failSpan and span.finish, so the
span is marked failed and finished before the error is surfaced to the
caller. -/
theorem c7_unary_error (e : Err) (ready : Bool) (readyErr : Option Err)
    (nowStart nowCall cT rT : Nat) (h : proceeds ready readyErr = true) :
    (unaryCall ready readyErr (Except.error e) nowStart nowCall cT rT).2.1 =
      Except.error e ∧
    countE isProcessedError
      (unaryCall ready readyErr (Except.error e) nowStart nowCall cT rT).1 = 1 ∧
    (∃ pre, (unaryCall ready readyErr (Except.error e) nowStart nowCall cT rT).1 =
      pre ++ [Effect.requestProcessed MetricResult.error,
              Effect.requestProcessingTime, Effect.spanFailed,
              Effect.spanFinish]) := by
  cases ready with
  | true =>
      refine ⟨rfl, ?_, ?_⟩
      · simp [unaryCall, unaryTransport, countE, isProcessedError]
      · exact ⟨[Effect.requestSent, Effect.spanStart,
                Effect.unaryRequest (callOptions false nowCall rT)], rfl⟩
  | false =>
      cases readyErr with
      | some e2 => simp [proceeds] at h
      | none =>
          refine ⟨rfl, ?_, ?_⟩
          · simp [unaryCall, unaryTransport, countE, isProcessedError]
          · exact ⟨[Effect.requestSent, Effect.spanStart,
                    Effect.waitForReady (nowStart + cT),
                    Effect.unaryRequest (callOptions false nowCall rT)], rfl⟩

/-- Witness for c7_unary_error: a ready client rejecting with a
transport error. -/
theorem c7_unary_error_witness :
    (unaryCall true none (Except.error (Err.transport 4)) 0 0 10 10).2.1 =
      Except.error (Err.transport 4) ∧
    countE isProcessedError
      (unaryCall true none (Except.error (Err.transport 4)) 0 0 10 10).1 = 1 ∧
    (∃ pre, (unaryCall true none (Except.error (Err.transport 4)) 0 0 10 10).1 =
      pre ++ [Effect.requestProcessed MetricResult.error,
              Effect.requestProcessingTime, Effect.spanFailed,
              Effect.spanFinish]) :=
  c7_unary_error (Err.transport 4) true none 0 0 10 10 rfl

/-- Claim C8: the call options give a unary call the absolute deadline
current time plus the configured request timeout, and a streaming call
no deadline at all; a unary call that reaches the transport issues its
request with that deadline, and a streaming call that reaches the
transport issues its stream request with no deadline. -/
theorem c8_deadlines (ready : Bool) (readyErr : Option Err)
    (transport : Except Err Nat) (events : List (StreamEvent Nat))
    (nowStart nowCall cT rT : Nat) (h : proceeds ready readyErr = true) :
    callOptions false nowCall rT = some (nowCall + rT) ∧
    callOptions true nowCall rT = none ∧
    Effect.unaryRequest (some (nowCall + rT)) ∈
      (unaryCall ready readyErr transport nowStart nowCall cT rT).1 ∧
    Effect.serverStreamRequest none ∈
      (streamingBody ready readyErr events nowStart nowCall cT rT).1 := by
  refine ⟨rfl, rfl, ?_, ?_⟩ <;>
    cases ready <;> cases readyErr <;> cases transport <;>
      simp_all [unaryCall, unaryTransport, streamingBody, callOptions, proceeds]

/-- Witness for c8_deadlines: a ready client at time 100 with request
timeout 30 issues the unary request with deadline 130 and the stream
request with no deadline. -/
theorem c8_deadlines_witness :
    callOptions false 100 30 = some (100 + 30) ∧
    callOptions true 100 30 = none ∧
    Effect.unaryRequest (some (100 + 30)) ∈
      (unaryCall true none (Except.ok 0) 100 100 10 30).1 ∧
    Effect.serverStreamRequest none ∈
      (streamingBody true none [] 100 100 10 30).1 :=
  c8_deadlines true none (Except.ok 0) [] 100 100 10 30 rfl

/-- Claim C2 as stated is false on the code: when the readiness wait
fails, whenReady (client.ts lines 95-107) fails and finishes the span
and rejects, but no request_processed metric and no timing sample are
emitted for that call: the only metric is the request_sent increment. -/
theorem c2_counterexample :
    countE isProcessed
      (unaryCall false (some Err.connectionTimeout) (Except.ok 0) 0 0 10 10).1 ≠ 1 := by
  decide

/-- Claim C2 (amended): every call, unary or streaming (the latter once
its transport delivers a terminal event), produces exactly one
request_sent metric, exactly one span which is finished exactly once;
a call that gets past the readiness check also produces exactly one
request_processed metric and exactly one timing sample, while a call
whose readiness wait fails produces no request_processed metric and no
timing sample. -/
theorem c2_per_call_instrumentation (ready : Bool) (readyErr : Option Err)
    (transport : Except Err Nat) (ds : List Nat) (te : Option Err)
    (nowStart nowCall cT rT : Nat) :
    (countE isSent (unaryCall ready readyErr transport nowStart nowCall cT rT).1 = 1 ∧
     countE isSpanStart
       (unaryCall ready readyErr transport nowStart nowCall cT rT).1 = 1 ∧
     countE isSpanFinish
       (unaryCall ready readyErr transport nowStart nowCall cT rT).1 = 1 ∧
     countE isProcessed
       (unaryCall ready readyErr transport nowStart nowCall cT rT).1 =
         (if proceeds ready readyErr then 1 else 0) ∧
     countE isTiming
       (unaryCall ready readyErr transport nowStart nowCall cT rT).1 =
         (if proceeds ready readyErr then 1 else 0)) ∧
    (countE isSent
       (streamingBody ready readyErr (ds.map StreamEvent.data ++ [terminalEvent te])
         nowStart nowCall cT rT).1 = 1 ∧
     countE isSpanStart
       (streamingBody ready readyErr (ds.map StreamEvent.data ++ [terminalEvent te])
         nowStart nowCall cT rT).1 = 1 ∧
     countE isSpanFinish
       (streamingBody ready readyErr (ds.map StreamEvent.data ++ [terminalEvent te])
         nowStart nowCall cT rT).1 = 1 ∧
     countE isProcessed
       (streamingBody ready readyErr (ds.map StreamEvent.data ++ [terminalEvent te])
         nowStart nowCall cT rT).1 = (if proceeds ready readyErr then 1 else 0) ∧
     countE isTiming
       (streamingBody ready readyErr (ds.map StreamEvent.data ++ [terminalEvent te])
         nowStart nowCall cT rT).1 = (if proceeds ready readyErr then 1 else 0)) := by
  cases ready <;> cases readyErr <;> cases transport <;> cases te <;>
    simp [unaryCall, unaryTransport, streamingBody, terminalEvent, proceeds,
      streamRun_trace_end, streamRun_trace_error, countE,
      isSent, isSpanStart, isSpanFinish, isProcessed, isTiming]

end CookieCutterGrpc
